import Mathlib

/-!
Shallow embedding of the `dashboard` app of the Vibes repository.

Django models and views are embedded as pure Lean functions over explicit
database state (lists of records).  Wall-clock reads (`timezone.now()` and
its derived quantities) are gathered in a `Clock` record that is passed
explicitly.  Machine integers are `Nat`/`Int` (Python integers are
unbounded).  Database queries (`filter(...).count()`, `exists()`, `update`)
become list operations on the explicit state.
-/

namespace Vibes

/-- Evaluation context holding the instants the code reads from the clock:
`now` is `timezone.now()`, `todayStart` is `now` with the time-of-day fields
zeroed (local midnight), `weekStart` is `now - timedelta(days=7)`, and
`today` is `now.date()`.  Instants and dates are abstract points on integer
time lines. -/
structure Clock where
  now : Int
  todayStart : Int
  weekStart : Int
  today : Int
deriving Repr, DecidableEq

/-- Embeds the `AIEthicsPolicy` model (src/dashboard/models.py): status is one
of draft/active/archived, thresholds are positive integers with defaults
100/500, and the effective range is a start date plus an optional end date. -/
structure AIEthicsPolicy where
  status : String := "draft"
  max_daily_usage : Nat := 100
  max_weekly_usage : Nat := 500
  effective_from : Int
  effective_until : Option Int := none
deriving Repr, DecidableEq

/-- Embeds `AIEthicsPolicy.is_active`: false unless status is "active", the
start date is not in the future, and the optional end date is not in the
past.  (In the Python, `self.effective_until and ...` only tests for `None`,
since `date` objects are always truthy.) -/
def AIEthicsPolicy.is_active (p : AIEthicsPolicy) (today : Int) : Bool :=
  if p.status ≠ "active" then false
  else if p.effective_from > today then false
  else if (match p.effective_until with
           | some u => decide (u < today)
           | none => false) then false
  else true

/-- Embeds the `AIUsageLog` model: one AI-usage event.  The policy foreign
key is carried inline as the referenced record (`none` when the FK is null).
Field defaults follow the model definition (`is_compliant=True`, blank
notes). -/
structure AIUsageLog where
  user : Nat
  ai_tool : String := "other"
  usage_type : String := "other"
  description : String := ""
  course_code : String := ""
  duration_minutes : Nat := 0
  tokens_used : Nat := 0
  policy : Option AIEthicsPolicy := none
  is_compliant : Bool := true
  compliance_notes : String := ""
  timestamp : Int := 0
deriving Repr, DecidableEq

/-- Embeds the query `AIUsageLog.objects.filter(user=u, timestamp__gte=start).count()`
used by the compliance check, the insight generator and the dashboard. -/
def countUserLogsSince (db : List AIUsageLog) (uid : Nat) (start : Int) : Nat :=
  (db.filter fun l => l.user == uid && decide (start ≤ l.timestamp)).length

/-- Embeds `AIUsageLog.check_compliance`, which mutates `is_compliant` and
`compliance_notes` on the instance: compliant when no active policy governs
the event (notes untouched); otherwise non-compliant with a daily-limit note
when the count of the user's persisted events since midnight reaches
`max_daily_usage` (returning before the weekly query runs); otherwise
non-compliant with a weekly-limit note when the trailing-7-day count reaches
`max_weekly_usage`; otherwise compliant with the within-limits note.
`db` is the persisted table, which does not yet contain `log` itself when the
check runs from `save` on insert. -/
def AIUsageLog.check_compliance (db : List AIUsageLog) (c : Clock) (log : AIUsageLog) :
    AIUsageLog :=
  match log.policy with
  | none => { log with is_compliant := true }
  | some p =>
    if ¬ p.is_active c.today then { log with is_compliant := true }
    else
      let daily_count := countUserLogsSince db log.user c.todayStart
      if p.max_daily_usage ≤ daily_count then
        { log with is_compliant := false,
                   compliance_notes :=
                     "Exceeded daily usage limit of " ++ toString p.max_daily_usage }
      else
        let weekly_count := countUserLogsSince db log.user c.weekStart
        if p.max_weekly_usage ≤ weekly_count then
          { log with is_compliant := false,
                     compliance_notes :=
                       "Exceeded weekly usage limit of " ++ toString p.max_weekly_usage }
        else
          { log with is_compliant := true,
                     compliance_notes := "Usage within policy limits" }

/-- Embeds the field mutation performed by `AIUsageLog.save` before writing the
row: `if self.policy: self.check_compliance()`.  This runs on EVERY call to
`save`, whether the row is being inserted or updated. -/
def AIUsageLog.save_fields (db : List AIUsageLog) (c : Clock) (log : AIUsageLog) :
    AIUsageLog :=
  match log.policy with
  | some _ => AIUsageLog.check_compliance db c log
  | none => log

/-- Embeds `AIUsageLog.save` on a new (unsaved) instance: compliance fields are
computed against the already-persisted table `db`, then the finished row is
inserted.  Returns the new table and the row as written. -/
def AIUsageLog.save (db : List AIUsageLog) (c : Clock) (log : AIUsageLog) :
    List AIUsageLog × AIUsageLog :=
  let l := AIUsageLog.save_fields db c log
  (db ++ [l], l)

/-- Embeds the `ComplianceStatus` model: a per-user, per-policy, per-period
snapshot of usage counts with a derived score and level. -/
structure ComplianceStatus where
  compliance_level : String := ""
  compliance_score : Nat := 0
  total_usage_count : Nat := 0
  compliant_usage_count : Nat := 0
  violation_count : Nat := 0
deriving Repr, DecidableEq

/-- Embeds `ComplianceStatus.calculate_score`: score 100 when there is no
usage, otherwise `int((compliant / total) * 100)`.  Python's `int()` truncates
the quotient toward zero, which for these non-negative counts is the floor,
i.e. `Nat` division `compliant * 100 / total` (the embedding uses the exact
rational value; IEEE-754 noise in the Python float is below the integer
granularity at the inputs considered here).  The level is then mapped from
the score by fixed thresholds 90/75/50. -/
def ComplianceStatus.calculate_score (s : ComplianceStatus) : ComplianceStatus :=
  let score :=
    if s.total_usage_count = 0 then 100
    else s.compliant_usage_count * 100 / s.total_usage_count
  let level :=
    if 90 ≤ score then "excellent"
    else if 75 ≤ score then "good"
    else if 50 ≤ score then "warning"
    else "violation"
  { s with compliance_score := score, compliance_level := level }

/-- States the score exactly as the specification words it (round to nearest,
not truncation): `round(compliant / total * 100)` when `total > 0`, else 100.
Used only to compare the spec sentence against `calculate_score`. -/
def calculate_score_roundSpec (s : ComplianceStatus) : Int :=
  if s.total_usage_count = 0 then 100
  else round ((s.compliant_usage_count : ℚ) / (s.total_usage_count : ℚ) * 100)

/-- Embeds the `UserInsight` model: a generated notice for one user, with a
primary key `id`, read/dismissed flags (both default false) and a creation
instant `generated_at` (`auto_now_add`). -/
structure UserInsight where
  id : Nat := 0
  user : Nat
  insight_type : String
  title : String := ""
  message : String := ""
  priority : String := "medium"
  is_read : Bool := false
  is_dismissed : Bool := false
  generated_at : Int := 0
deriving Repr, DecidableEq

/-- Embeds the dedup query of the insight generator:
`UserInsight.objects.filter(user=u, insight_type='warning', generated_at__gte=today_start).exists()`. -/
def hasWarningInsightToday (insights : List UserInsight) (uid : Nat) (todayStart : Int) :
    Bool :=
  insights.any fun i =>
    i.user == uid && i.insight_type == "warning" && decide (todayStart ≤ i.generated_at)

/-- Counts the warning insights a user has generated since `todayStart`; the
filter predicate is literally the one of `hasWarningInsightToday`. -/
def countWarningsToday (insights : List UserInsight) (uid : Nat) (todayStart : Int) : Nat :=
  (insights.filter fun i =>
    i.user == uid && i.insight_type == "warning" && decide (todayStart ≤ i.generated_at)).length

/-- Counts a user's insights of a given type, for stating how many records a
step of the generator creates. -/
def countInsightsOfType (insights : List UserInsight) (uid : Nat) (ty : String) : Nat :=
  (insights.filter fun i => i.user == uid && i.insight_type == ty).length

/-- Milestone values of the achievement check in `generate_usage_insights`. -/
def milestones : List Nat := [10, 50, 100, 250, 500, 1000]

/-- The warning `UserInsight.objects.create(...)` record of the generator:
high priority, created now, message carrying today's event count. -/
def warnRec (logs : List AIUsageLog) (c : Clock) (inst : AIUsageLog) : UserInsight :=
  { user := inst.user, insight_type := "warning",
    title := "High AI Usage Today",
    message := "You have logged " ++
      toString (countUserLogsSince logs inst.user c.todayStart) ++
      " AI interactions today. Consider taking breaks and reflecting on your learning process.",
    priority := "high", generated_at := c.now }

/-- The achievement `UserInsight.objects.create(...)` record of the generator:
medium priority, created now, title and message carrying the all-time count. -/
def achvRec (logs : List AIUsageLog) (c : Clock) (inst : AIUsageLog) : UserInsight :=
  { user := inst.user, insight_type := "achievement",
    title := "Milestone: " ++
      toString ((logs.filter fun l => l.user == inst.user).length) ++ " AI Interactions!",
    message := "Congratulations! You have logged " ++
      toString ((logs.filter fun l => l.user == inst.user).length) ++
      " AI interactions. Keep learning responsibly!",
    priority := "medium", generated_at := c.now }

/-- Embeds the `post_save` receiver `generate_usage_insights`
(src/dashboard/signals.py).  `logs` is the usage-log table AFTER the new row
was inserted (the signal fires post-save), `insights` the insight table, and
`created` the signal's created flag.  When `created`, two checks run: a
high-priority warning insight when today's event count reaches 50 and none
was generated since midnight, and a medium-priority achievement insight when
the all-time count is exactly a milestone. -/
def generate_usage_insights (logs : List AIUsageLog) (insights : List UserInsight)
    (c : Clock) (inst : AIUsageLog) (created : Bool) : List UserInsight :=
  if !created then insights
  else
    let uid := inst.user
    let today_usage := countUserLogsSince logs uid c.todayStart
    let insights1 :=
      if 50 ≤ today_usage ∧ ¬ hasWarningInsightToday insights uid c.todayStart then
        insights ++ [warnRec logs c inst]
      else insights
    let total_usage := (logs.filter fun l => l.user == uid).length
    if total_usage ∈ milestones then
      insights1 ++ [achvRec logs c inst]
    else insights1

/-- Row-level effect of `insights.filter(is_read=False).update(is_read=True)`
in `insights_view`: a row belonging to the user, not dismissed and unread
gets `is_read := true`; every other row is untouched. -/
def markReadRow (uid : Nat) (i : UserInsight) : UserInsight :=
  if i.user == uid && !i.is_dismissed && !i.is_read then { i with is_read := true } else i

/-- Embeds `insights_view` (src/dashboard/views.py): the queryset is the
user's non-dismissed insights; the unread ones among them are updated to
`is_read=True` before the page renders.  Returns the displayed rows
(membership-faithful; the order_by ordering is not modelled) and the updated
insight table. -/
def insights_view (db : List UserInsight) (uid : Nat) :
    List UserInsight × List UserInsight :=
  let updated := db.map (markReadRow uid)
  (updated.filter fun i => i.user == uid && !i.is_dismissed, updated)

/-- Embeds `dismiss_insight_view`: `get_object_or_404(UserInsight, id=insight_id,
user=request.user)` followed by `is_dismissed = True; save()`.  Returns
`none` (the 404 branch) with the table untouched when no row matches both the
id and the owner; otherwise writes the fetched row back with the flag set
(an UPDATE keyed on the primary key). -/
def dismiss_insight_view (db : List UserInsight) (uid : Nat) (insight_id : Nat) :
    Option Unit × List UserInsight :=
  match db.find? (fun i => i.id == insight_id && i.user == uid) with
  | none => (none, db)
  | some ins =>
    (some (), db.map fun i =>
      if i.id == ins.id then { ins with is_dismissed := true } else i)

/-- Embeds the authenticated `User` row (Django auth) as far as the export
reads it. -/
structure UserRec where
  id : Nat
  username : String := ""
  email : String := ""
  first_name : String := ""
  last_name : String := ""
  date_joined : Int := 0
deriving Repr, DecidableEq

/-- Embeds the `UserProfile` model fields the export and views read. -/
structure UserProfile where
  user : Nat
  student_id : Option String := none
  department : String := ""
  enrollment_date : Int := 0
  data_collection_consent : Bool := false
  consent_date : Option Int := none
  allow_analytics : Bool := true
  email_notifications : Bool := true
  weekly_summary : Bool := true
deriving Repr, DecidableEq

/-- Embeds the `UserFeedback` model. -/
structure UserFeedback where
  user : Nat
  feedback_type : String := "general"
  title : String := ""
  description : String := ""
  url : String := ""
  status : String := "new"
  admin_response : String := ""
  submitted_at : Int := 0
deriving Repr, DecidableEq

/-- Field projection the export applies to the `user` row. -/
structure ExportedUser where
  username : String
  email : String
  first_name : String
  last_name : String
  date_joined : Int
deriving Repr, DecidableEq

/-- Field projection the export applies to the profile row. -/
structure ExportedProfile where
  student_id : Option String
  department : String
  enrollment_date : Int
  data_collection_consent : Bool
  consent_date : Option Int
deriving Repr, DecidableEq

/-- Columns selected by `AIUsageLog.objects.filter(user=user).values(...)` in
the export. -/
structure ExportedUsageLog where
  ai_tool : String
  usage_type : String
  description : String
  course_code : String
  duration_minutes : Nat
  tokens_used : Nat
  is_compliant : Bool
  timestamp : Int
deriving Repr, DecidableEq

/-- Columns selected by `UserInsight.objects.filter(user=user).values(...)` in
the export. -/
structure ExportedInsight where
  insight_type : String
  title : String
  message : String
  priority : String
  generated_at : Int
deriving Repr, DecidableEq

/-- Columns selected by `UserFeedback.objects.filter(user=user).values(...)` in
the export. -/
structure ExportedFeedback where
  feedback_type : String
  title : String
  description : String
  status : String
  submitted_at : Int
deriving Repr, DecidableEq

/-- The JSON object built by `export_data_view`: exactly the keys `user`,
`profile`, `usage_logs`, `insights`, `feedback`. -/
structure ExportData where
  user : ExportedUser
  profile : ExportedProfile
  usage_logs : List ExportedUsageLog
  insights : List ExportedInsight
  feedback : List ExportedFeedback
deriving Repr, DecidableEq

/-- Projection of a usage-log row onto the exported columns. -/
def usageLogExport (l : AIUsageLog) : ExportedUsageLog :=
  { ai_tool := l.ai_tool, usage_type := l.usage_type, description := l.description,
    course_code := l.course_code, duration_minutes := l.duration_minutes,
    tokens_used := l.tokens_used, is_compliant := l.is_compliant, timestamp := l.timestamp }

/-- Projection of an insight row onto the exported columns. -/
def insightExport (i : UserInsight) : ExportedInsight :=
  { insight_type := i.insight_type, title := i.title, message := i.message,
    priority := i.priority, generated_at := i.generated_at }

/-- Projection of a feedback row onto the exported columns. -/
def feedbackExport (f : UserFeedback) : ExportedFeedback :=
  { feedback_type := f.feedback_type, title := f.title, description := f.description,
    status := f.status, submitted_at := f.submitted_at }

/-- Database state visible to `export_data_view`. -/
structure Db where
  profiles : List UserProfile
  logs : List AIUsageLog
  insights : List UserInsight
  feedback : List UserFeedback
deriving Repr, DecidableEq

/-- Embeds `export_data_view` for the authenticated user `u`: `user.profile`
(the one-to-one lookup; `none` models the error raised when no profile row
exists), then each of the three tables filtered by `user=user` with the
`.values(...)` column selection. -/
def export_data_view (db : Db) (u : UserRec) : Option ExportData :=
  match db.profiles.find? (fun p => p.user == u.id) with
  | none => none
  | some profile =>
    some
      { user := { username := u.username, email := u.email, first_name := u.first_name,
                  last_name := u.last_name, date_joined := u.date_joined },
        profile := { student_id := profile.student_id, department := profile.department,
                     enrollment_date := profile.enrollment_date,
                     data_collection_consent := profile.data_collection_consent,
                     consent_date := profile.consent_date },
        usage_logs := (db.logs.filter fun l => l.user == u.id).map usageLogExport,
        insights := (db.insights.filter fun i => i.user == u.id).map insightExport,
        feedback := (db.feedback.filter fun f => f.user == u.id).map feedbackExport }

/-! Concrete fixtures used by witnesses and counterexamples. -/

/-- Fixture clock: now 100, midnight at 90, seven days ago at 30, date 5. -/
def c0 : Clock := { now := 100, todayStart := 90, weekStart := 30, today := 5 }

/-- Fixture policy: active, daily limit 5, weekly limit 20, open-ended range. -/
def p5 : AIEthicsPolicy :=
  { status := "active", max_daily_usage := 5, max_weekly_usage := 20, effective_from := 0 }

/-- Fixture table: five persisted same-day events of user 0. -/
def db5 : List AIUsageLog := List.replicate 5 { user := 0, timestamp := 95 }

/-- Fixture event: a sixth same-day event of user 0 governed by `p5`. -/
def log6 : AIUsageLog := { user := 0, timestamp := 99, policy := some p5 }

/-- Fixture policy with daily limit 1. -/
def p1 : AIEthicsPolicy :=
  { status := "active", max_daily_usage := 1, max_weekly_usage := 20, effective_from := 0 }

/-- Fixture row: exactly what inserting `{user 0, timestamp 95, policy p1}` into an
empty table produces (compliant, within-limits note). -/
def logC3 : AIUsageLog :=
  { user := 0, timestamp := 95, policy := some p1, is_compliant := true,
    compliance_notes := "Usage within policy limits" }

/-- Fixture table: the persisted `logC3` plus a later same-day event of the
same user. -/
def dbC3 : List AIUsageLog :=
  [{ user := 0, timestamp := 96 }, logC3]

/-- Fixture snapshot: 3 events, 2 of them compliant. -/
def statusC4 : ComplianceStatus := { total_usage_count := 3, compliant_usage_count := 2 }

/-- Fixture table: ten persisted same-day events of user 0 (so the tenth event
was just inserted). -/
def logs10 : List AIUsageLog := List.replicate 10 { user := 0, timestamp := 95 }

/-- Fixture table: fifty persisted same-day events of user 0. -/
def logs50 : List AIUsageLog := List.replicate 50 { user := 0, timestamp := 95 }

/-- Fixture insight table: one warning insight of user 0 with primary key 1. -/
def dbW9 : List UserInsight := [{ id := 1, user := 0, insight_type := "warning" }]

/-- Fixture insight table: one unread recommendation of user 0. -/
def dbC10 : List UserInsight := [{ id := 7, user := 0, insight_type := "recommendation" }]

/-- Fixture database with records of two users (ids 0 and 1). -/
def db8 : Db :=
  { profiles := [{ user := 0 }, { user := 1 }],
    logs := [{ user := 0, timestamp := 1 }, { user := 1, timestamp := 2 }],
    insights := [{ user := 0, insight_type := "warning" },
                 { user := 1, insight_type := "achievement" }],
    feedback := [{ user := 0 }, { user := 1 }] }

/-- Fixture requesting user for the export: id 0. -/
def u8 : UserRec := { id := 0, username := "alice" }

/-- The export `export_data_view db8 u8` produces. -/
def e8 : ExportData :=
  { user := { username := "alice", email := "", first_name := "", last_name := "",
              date_joined := 0 },
    profile := { student_id := none, department := "", enrollment_date := 0,
                 data_collection_consent := false, consent_date := none },
    usage_logs := [{ ai_tool := "other", usage_type := "other", description := "",
                     course_code := "", duration_minutes := 0, tokens_used := 0,
                     is_compliant := true, timestamp := 1 }],
    insights := [{ insight_type := "warning", title := "", message := "",
                   priority := "medium", generated_at := 0 }],
    feedback := [{ feedback_type := "general", title := "", description := "",
                   status := "new", submitted_at := 0 }] }

/-! Helper lemmas shared by the claim theorems. -/

/-- Counting a user's insights of a type distributes over table append. -/
theorem countInsightsOfType_append (xs ys : List UserInsight) (uid : Nat) (ty : String) :
    countInsightsOfType (xs ++ ys) uid ty =
      countInsightsOfType xs uid ty + countInsightsOfType ys uid ty := by
  simp [countInsightsOfType, List.filter_append]

/-- Counting a user's same-day warning insights distributes over table append. -/
theorem countWarningsToday_append (xs ys : List UserInsight) (uid : Nat) (t : Int) :
    countWarningsToday (xs ++ ys) uid t =
      countWarningsToday xs uid t + countWarningsToday ys uid t := by
  simp [countWarningsToday, List.filter_append]

/-- The generator's dedup `exists()` query holds iff the same-day warning count
is positive. -/
theorem hasWarningInsightToday_iff (insights : List UserInsight) (uid : Nat) (t : Int) :
    hasWarningInsightToday insights uid t = true ↔ 0 < countWarningsToday insights uid t := by
  simp [hasWarningInsightToday, countWarningsToday, List.any_eq_true, List.length_pos,
    List.filter_eq_nil_iff, and_assoc]

/-! Claim theorems. -/

/-- C5: `is_active` returns true iff status is active and today falls within
the effective interval: `effective_from ≤ today` and the optional
`effective_until` is unset or not before today. -/
theorem is_active_iff (p : AIEthicsPolicy) (today : Int) :
    p.is_active today = true ↔
      (p.status = "active" ∧ p.effective_from ≤ today ∧
        (p.effective_until = none ∨ ∃ u, p.effective_until = some u ∧ today ≤ u)) := by
  rcases hu : p.effective_until with _ | u <;>
    by_cases hs : p.status = "active" <;>
      simp [AIEthicsPolicy.is_active, hu, hs]

/-- C1: case analysis of `check_compliance` on a freshly created event (blank
notes): with no active policy the event is marked compliant with no notes;
with an active policy, a daily count at or above `max_daily_usage` yields
non-compliance with the daily-limit note (with no condition on the weekly
count, so the weekly check never influences this branch); below the daily
limit, a weekly count at or above `max_weekly_usage` yields non-compliance
with the weekly-limit note; below both limits the event is compliant. -/
theorem check_compliance_cases (db : List AIUsageLog) (c : Clock) (log : AIUsageLog) :
    ((log.policy = none ∨ ∃ p, log.policy = some p ∧ p.is_active c.today = false) →
      log.compliance_notes = "" →
        (AIUsageLog.check_compliance db c log).is_compliant = true ∧
        (AIUsageLog.check_compliance db c log).compliance_notes = "") ∧
    (∀ p, log.policy = some p → p.is_active c.today = true →
      ((p.max_daily_usage ≤ countUserLogsSince db log.user c.todayStart →
          (AIUsageLog.check_compliance db c log).is_compliant = false ∧
          (AIUsageLog.check_compliance db c log).compliance_notes =
            "Exceeded daily usage limit of " ++ toString p.max_daily_usage) ∧
       (countUserLogsSince db log.user c.todayStart < p.max_daily_usage →
        p.max_weekly_usage ≤ countUserLogsSince db log.user c.weekStart →
          (AIUsageLog.check_compliance db c log).is_compliant = false ∧
          (AIUsageLog.check_compliance db c log).compliance_notes =
            "Exceeded weekly usage limit of " ++ toString p.max_weekly_usage) ∧
       (countUserLogsSince db log.user c.todayStart < p.max_daily_usage →
        countUserLogsSince db log.user c.weekStart < p.max_weekly_usage →
          (AIUsageLog.check_compliance db c log).is_compliant = true))) := by
  constructor
  · rintro (hn | ⟨p, hp, hact⟩) hnotes
    · simp [AIUsageLog.check_compliance, hn, hnotes]
    · simp [AIUsageLog.check_compliance, hp, hact, hnotes]
  · intro p hp hact
    refine ⟨?_, ?_, ?_⟩
    · intro hd
      simp [AIUsageLog.check_compliance, hp, hact, hd]
    · intro hd hw
      simp [AIUsageLog.check_compliance, hp, hact, Nat.not_le.mpr hd, hw]
    · intro hd hw
      simp [AIUsageLog.check_compliance, hp, hact, Nat.not_le.mpr hd, Nat.not_le.mpr hw]

/-- Witness for C1: with five persisted same-day events and a daily limit of
five, the daily branch fires on the sixth event. -/
theorem check_compliance_cases_witness :
    (AIUsageLog.check_compliance db5 c0 log6).is_compliant = false ∧
    (AIUsageLog.check_compliance db5 c0 log6).compliance_notes =
      "Exceeded daily usage limit of " ++ toString p5.max_daily_usage :=
  ((check_compliance_cases db5 c0 log6).2 p5 rfl (by decide)).1 (by decide)

/-- C2: with an active policy of daily limit 5, saving a new event while 5
same-day events of the user are already persisted marks the new event
non-compliant; the table row is appended only after the verdict is computed
(first conjunct), and with only 4 strictly prior events the new event stays
compliant — the count covers persisted events only, not the event under
evaluation. -/
theorem sixth_same_day_event_noncompliant (db : List AIUsageLog) (c : Clock)
    (log : AIUsageLog) (p : AIEthicsPolicy) (hp : log.policy = some p)
    (hact : p.is_active c.today = true) (hmax : p.max_daily_usage = 5) :
    ((AIUsageLog.save db c log).1 = db ++ [(AIUsageLog.save db c log).2]) ∧
    (countUserLogsSince db log.user c.todayStart = 5 →
      (AIUsageLog.save db c log).2.is_compliant = false ∧
      (AIUsageLog.save db c log).2.compliance_notes = "Exceeded daily usage limit of 5") ∧
    (countUserLogsSince db log.user c.todayStart = 4 →
      countUserLogsSince db log.user c.weekStart < p.max_weekly_usage →
      (AIUsageLog.save db c log).2.is_compliant = true) := by
  refine ⟨rfl, ?_, ?_⟩
  · intro hd
    simp [AIUsageLog.save, AIUsageLog.save_fields, AIUsageLog.check_compliance,
      hp, hact, hd, hmax]
    rfl
  · intro hd hw
    simp [AIUsageLog.save, AIUsageLog.save_fields, AIUsageLog.check_compliance,
      hp, hact, hd, hmax, Nat.not_le.mpr hw]

/-- Witness for C2 at the fixture: five persisted same-day events, limit 5,
the sixth save is non-compliant. -/
theorem sixth_same_day_event_noncompliant_witness :
    (AIUsageLog.save db5 c0 log6).2.is_compliant = false ∧
    (AIUsageLog.save db5 c0 log6).2.compliance_notes = "Exceeded daily usage limit of 5" :=
  (sixth_same_day_event_noncompliant db5 c0 log6 p5 rfl (by decide) rfl).2.1 (by decide)

/-- C3 is refuted: the verdict is not computed only once at insert time.
`logC3` is exactly the row that inserting the event into an empty table
produced (first conjunct: compliant, within-limits note); re-running `save`
on the already-persisted row later, when the table holds one more same-day
event of the user, recomputes the verdict and flips it to non-compliant. -/
theorem compliance_recomputed_on_later_save :
    AIUsageLog.save_fields [] c0 { user := 0, timestamp := 95, policy := some p1 } = logC3 ∧
    (AIUsageLog.save_fields dbC3 c0 logC3).is_compliant = false ∧
    (AIUsageLog.save_fields dbC3 c0 logC3).compliance_notes =
      "Exceeded daily usage limit of 1" := by
  decide

/-- C3 (amended): every call to `save` with a policy reference set recomputes
the verdict against the then-current table and policy — the saved row is
compliant iff the policy is inactive or both windowed counts are strictly
below their limits; only a row with no policy reference keeps its fields
unchanged across saves. -/
theorem compliance_computed_every_save (db : List AIUsageLog) (c : Clock)
    (log : AIUsageLog) :
    (log.policy = none → AIUsageLog.save_fields db c log = log) ∧
    (∀ p, log.policy = some p →
      ((AIUsageLog.save_fields db c log).is_compliant = true ↔
        (p.is_active c.today = false ∨
          (countUserLogsSince db log.user c.todayStart < p.max_daily_usage ∧
           countUserLogsSince db log.user c.weekStart < p.max_weekly_usage)))) := by
  constructor
  · intro hn
    simp [AIUsageLog.save_fields, hn]
  · intro p hp
    by_cases hact : p.is_active c.today
    · by_cases hd : p.max_daily_usage ≤ countUserLogsSince db log.user c.todayStart
      · simp [AIUsageLog.save_fields, AIUsageLog.check_compliance, hp, hact, hd]
      · by_cases hw : p.max_weekly_usage ≤ countUserLogsSince db log.user c.weekStart
        · simp [AIUsageLog.save_fields, AIUsageLog.check_compliance, hp, hact, hd, hw]
        · simp [AIUsageLog.save_fields, AIUsageLog.check_compliance, hp, hact, hd, hw]
          omega
    · have hf : p.is_active c.today = false := by
        simp only [Bool.not_eq_true] at hact
        exact hact
      simp [AIUsageLog.save_fields, AIUsageLog.check_compliance, hp, hf]

/-- Witness for the amended C3 at the fixture: re-saving `logC3` against
`dbC3` yields a non-compliant row, matching the right-hand side. -/
theorem compliance_computed_every_save_witness :
    (AIUsageLog.save_fields dbC3 c0 logC3).is_compliant = true ↔
      (p1.is_active c0.today = false ∨
        (countUserLogsSince dbC3 logC3.user c0.todayStart < p1.max_daily_usage ∧
         countUserLogsSince dbC3 logC3.user c0.weekStart < p1.max_weekly_usage)) :=
  (compliance_computed_every_save dbC3 c0 logC3).2 p1 rfl

/-- C4 is refuted at total 3, compliant 2: the code truncates
`(2 / 3) * 100` to 66, while the claim's rounding gives 67. -/
theorem calculate_score_truncates_not_rounds :
    (statusC4.calculate_score).compliance_score = 66 ∧
    calculate_score_roundSpec statusC4 = 67 ∧
    ¬ (((statusC4.calculate_score).compliance_score : Int) =
        calculate_score_roundSpec statusC4) := by
  have h1 : (statusC4.calculate_score).compliance_score = 66 := rfl
  have h2 : calculate_score_roundSpec statusC4 = 67 := by
    rw [calculate_score_roundSpec]
    norm_num [statusC4, round_eq]
  refine ⟨h1, h2, ?_⟩
  rw [h1, h2]
  decide

/-- C4 (amended): the score is 100 when there is no usage and otherwise the
TRUNCATED percentage `compliant * 100 / total` (integer division); the score
never exceeds 100 when `compliant ≤ total`; the level is the deterministic
90/75/50 mapping of the score; and zero total always yields 100/excellent. -/
theorem calculate_score_spec (s : ComplianceStatus)
    (h : s.compliant_usage_count ≤ s.total_usage_count) :
    (s.calculate_score).compliance_score =
      (if s.total_usage_count = 0 then 100
       else s.compliant_usage_count * 100 / s.total_usage_count) ∧
    (s.calculate_score).compliance_score ≤ 100 ∧
    (s.calculate_score).compliance_level =
      (if 90 ≤ (s.calculate_score).compliance_score then "excellent"
       else if 75 ≤ (s.calculate_score).compliance_score then "good"
       else if 50 ≤ (s.calculate_score).compliance_score then "warning"
       else "violation") ∧
    (s.total_usage_count = 0 →
      (s.calculate_score).compliance_score = 100 ∧
      (s.calculate_score).compliance_level = "excellent") := by
  by_cases ht : s.total_usage_count = 0
  · simp [ComplianceStatus.calculate_score, ht]
  · have hb : s.compliant_usage_count * 100 / s.total_usage_count ≤ 100 := by
      have h1 : s.compliant_usage_count * 100 ≤ s.total_usage_count * 100 :=
        Nat.mul_le_mul_right 100 h
      have h2 := Nat.div_le_div_right (c := s.total_usage_count) h1
      have h3 : s.total_usage_count * 100 / s.total_usage_count = 100 := by
        rw [Nat.mul_comm]
        exact Nat.mul_div_cancel 100 (Nat.pos_of_ne_zero ht)
      omega
    simp [ComplianceStatus.calculate_score, ht, hb]

/-- Witness for the amended C4: at total 3, compliant 2 the score is the
truncated percentage 66 and is at most 100. -/
theorem calculate_score_spec_witness :
    (statusC4.calculate_score).compliance_score ≤ 100 :=
  (calculate_score_spec statusC4 (by decide)).2.1

/-- Unfolding of the generator on a created event: the warning step appends
`warnRec` exactly when today's count has reached 50 and no same-day warning
exists, and the milestone step appends `achvRec` exactly when the all-time
count is a milestone. -/
theorem generate_usage_insights_eq (logs : List AIUsageLog) (insights : List UserInsight)
    (c : Clock) (inst : AIUsageLog) :
    generate_usage_insights logs insights c inst true =
      (if 50 ≤ countUserLogsSince logs inst.user c.todayStart ∧
          ¬ hasWarningInsightToday insights inst.user c.todayStart then
        insights ++ [warnRec logs c inst]
      else insights) ++
      (if ((logs.filter fun l => l.user == inst.user).length) ∈ milestones then
        [achvRec logs c inst]
      else []) := by
  by_cases h1 : (50 ≤ countUserLogsSince logs inst.user c.todayStart ∧
      ¬ hasWarningInsightToday insights inst.user c.todayStart = true) <;>
  by_cases h2 : ((logs.filter fun l => l.user == inst.user).length) ∈ milestones <;>
    simp [generate_usage_insights, h1, h2]

/-- C6: when the new event brings the user's all-time count (as re-read by the
post-save handler) to exactly a milestone value, exactly one achievement
insight is created for that user: the achievement count rises by one and the
generated record `achvRec` — appended last — has priority medium, belongs to
the user, and has a title containing the milestone number; at a non-milestone
count no achievement insight is created. -/
theorem milestone_achievement_insight (logs : List AIUsageLog) (insights : List UserInsight)
    (c : Clock) (inst : AIUsageLog) :
    ((logs.filter fun l => l.user == inst.user).length ∈ milestones →
      countInsightsOfType (generate_usage_insights logs insights c inst true) inst.user
          "achievement" =
        countInsightsOfType insights inst.user "achievement" + 1 ∧
      (generate_usage_insights logs insights c inst true).getLast? =
        some (achvRec logs c inst) ∧
      (achvRec logs c inst).priority = "medium" ∧
      (achvRec logs c inst).user = inst.user ∧
      (∃ s t, (achvRec logs c inst).title =
        s ++ toString ((logs.filter fun l => l.user == inst.user).length) ++ t)) ∧
    ((logs.filter fun l => l.user == inst.user).length ∉ milestones →
      countInsightsOfType (generate_usage_insights logs insights c inst true) inst.user
          "achievement" =
        countInsightsOfType insights inst.user "achievement") := by
  have heq := generate_usage_insights_eq logs insights c inst
  constructor
  · intro hm
    rw [heq]
    refine ⟨?_, ?_, rfl, rfl, ⟨"Milestone: ", " AI Interactions!", rfl⟩⟩
    · by_cases h1 : (50 ≤ countUserLogsSince logs inst.user c.todayStart ∧
          ¬ hasWarningInsightToday insights inst.user c.todayStart = true)
      · rw [if_pos h1, if_pos hm]
        simp [countInsightsOfType_append, countInsightsOfType, warnRec, achvRec]
      · rw [if_neg h1, if_pos hm]
        simp [countInsightsOfType_append, countInsightsOfType, achvRec]
    · rw [if_pos hm]
      exact List.getLast?_concat _
  · intro hm
    rw [heq, if_neg hm]
    by_cases h1 : (50 ≤ countUserLogsSince logs inst.user c.todayStart ∧
        ¬ hasWarningInsightToday insights inst.user c.todayStart = true)
    · rw [if_pos h1]
      simp [countInsightsOfType_append, countInsightsOfType, warnRec]
    · rw [if_neg h1]
      simp

/-- Witness for C6: with ten persisted events of user 0 (tenth just created),
the achievement count rises from 0 to 1. -/
theorem milestone_achievement_insight_witness :
    countInsightsOfType
        (generate_usage_insights logs10 [] c0 { user := 0, timestamp := 99 } true) 0
        "achievement" =
      countInsightsOfType [] 0 "achievement" + 1 :=
  ((milestone_achievement_insight logs10 [] c0 { user := 0, timestamp := 99 }).1
    (by decide)).1

/-- C7: per-day idempotence of the warning insight.  The user's same-day
warning count after the generator runs equals the old count plus one exactly
when today's event count has reached 50 and no warning was generated since
midnight, and is otherwise unchanged — so a warning insight is created only
if none existed that day, further same-day events add none, and the generator
never pushes the per-day count above one.  When the warning is created it is
the high-priority record `warnRec`.  The hypothesis ties the clock together:
midnight does not lie after now. -/
theorem warning_insight_idempotent (logs : List AIUsageLog) (insights : List UserInsight)
    (c : Clock) (inst : AIUsageLog) (hc : c.todayStart ≤ c.now) :
    (countWarningsToday (generate_usage_insights logs insights c inst true) inst.user
        c.todayStart =
      if 50 ≤ countUserLogsSince logs inst.user c.todayStart ∧
          countWarningsToday insights inst.user c.todayStart = 0
      then countWarningsToday insights inst.user c.todayStart + 1
      else countWarningsToday insights inst.user c.todayStart) ∧
    (countWarningsToday insights inst.user c.todayStart = 0 →
      50 ≤ countUserLogsSince logs inst.user c.todayStart →
      warnRec logs c inst ∈ generate_usage_insights logs insights c inst true ∧
      (warnRec logs c inst).priority = "high" ∧
      (warnRec logs c inst).insight_type = "warning" ∧
      (warnRec logs c inst).user = inst.user) := by
  have heq := generate_usage_insights_eq logs insights c inst
  have hiff := hasWarningInsightToday_iff insights inst.user c.todayStart
  have hzero : ¬ (hasWarningInsightToday insights inst.user c.todayStart = true) ↔
      countWarningsToday insights inst.user c.todayStart = 0 := by
    rw [hiff]; omega
  constructor
  · rw [heq]
    by_cases h1 : (50 ≤ countUserLogsSince logs inst.user c.todayStart ∧
        ¬ hasWarningInsightToday insights inst.user c.todayStart = true)
    · have hpos : 50 ≤ countUserLogsSince logs inst.user c.todayStart ∧
          countWarningsToday insights inst.user c.todayStart = 0 := ⟨h1.1, hzero.mp h1.2⟩
      rw [if_pos h1, if_pos hpos]
      by_cases h2 : ((logs.filter fun l => l.user == inst.user).length) ∈ milestones
      · rw [if_pos h2]
        simp [countWarningsToday_append, countWarningsToday, warnRec, achvRec, hc]
      · rw [if_neg h2]
        simp [countWarningsToday_append, countWarningsToday, warnRec, hc]
    · have hcond : ¬ (50 ≤ countUserLogsSince logs inst.user c.todayStart ∧
          countWarningsToday insights inst.user c.todayStart = 0) := by
        intro hand
        exact h1 ⟨hand.1, hzero.mpr hand.2⟩
      rw [if_neg h1, if_neg hcond]
      by_cases h2 : ((logs.filter fun l => l.user == inst.user).length) ∈ milestones
      · rw [if_pos h2]
        simp [countWarningsToday_append, countWarningsToday, achvRec]
      · rw [if_neg h2]
        simp [countWarningsToday_append]
  · intro hz husage
    refine ⟨?_, rfl, rfl, rfl⟩
    have hp1 : 50 ≤ countUserLogsSince logs inst.user c.todayStart ∧
        ¬ hasWarningInsightToday insights inst.user c.todayStart = true :=
      ⟨husage, hzero.mpr hz⟩
    rw [heq, if_pos hp1]
    simp

/-- Witness for C7: with fifty persisted events of user 0 and no prior warning
insight, the generator creates the high-priority warning record. -/
theorem warning_insight_idempotent_witness :
    warnRec logs50 c0 { user := 0, timestamp := 99 } ∈
      generate_usage_insights logs50 [] c0 { user := 0, timestamp := 99 } true :=
  ((warning_insight_idempotent logs50 [] c0 { user := 0, timestamp := 99 }
    (by decide)).2 (by decide) (by decide)).1

/-- The read-marking update changes at most `is_read`, and sets it exactly for
the user's non-dismissed unread rows. -/
theorem markReadRow_fields (uid : Nat) (i : UserInsight) :
    (markReadRow uid i).id = i.id ∧ (markReadRow uid i).user = i.user ∧
    (markReadRow uid i).insight_type = i.insight_type ∧
    (markReadRow uid i).title = i.title ∧ (markReadRow uid i).message = i.message ∧
    (markReadRow uid i).priority = i.priority ∧
    (markReadRow uid i).is_dismissed = i.is_dismissed ∧
    (markReadRow uid i).generated_at = i.generated_at ∧
    (markReadRow uid i).is_read = (i.is_read || (i.user == uid && !i.is_dismissed)) := by
  by_cases h1 : i.user == uid <;> by_cases h2 : i.is_dismissed <;>
    by_cases h3 : i.is_read <;> simp [markReadRow, h1, h2, h3]

/-- C9: dismissing an insight owned by the requesting user succeeds, sets
`is_dismissed` on the row with that id (leaving every other row as it was in
the table) and excludes the id from the subsequent insight listing of that
user; when no insight with that id belongs to the requesting user — it does
not exist or belongs to another user — the view answers not-found and the
table is unchanged. -/
theorem dismiss_insight_spec (db : List UserInsight) (uid insight_id : Nat) :
    ((∀ i ∈ db, ¬ (i.id = insight_id ∧ i.user = uid)) →
      dismiss_insight_view db uid insight_id = (none, db)) ∧
    ((∃ i ∈ db, i.id = insight_id ∧ i.user = uid) →
      (dismiss_insight_view db uid insight_id).1 = some () ∧
      (dismiss_insight_view db uid insight_id).2.length = db.length ∧
      (∀ j ∈ (dismiss_insight_view db uid insight_id).2,
        (j.id = insight_id → j.is_dismissed = true ∧ j.user = uid) ∧
        (j.id ≠ insight_id → j ∈ db)) ∧
      (∀ j ∈ (insights_view (dismiss_insight_view db uid insight_id).2 uid).1,
        j.id ≠ insight_id)) := by
  constructor
  · intro hnone
    have hfind : db.find? (fun i => i.id == insight_id && i.user == uid) = none := by
      rw [List.find?_eq_none]
      intro i hi
      have := hnone i hi
      simp only [Bool.and_eq_true, beq_iff_eq]
      tauto
    simp [dismiss_insight_view, hfind]
  · intro hex
    cases hfind : db.find? (fun i => i.id == insight_id && i.user == uid) with
    | none =>
      exfalso
      obtain ⟨i, hi, h1, h2⟩ := hex
      have hni := List.find?_eq_none.mp hfind i hi
      simp [h1, h2] at hni
    | some ins =>
      have hp := List.find?_some hfind
      simp only [Bool.and_eq_true, beq_iff_eq] at hp
      obtain ⟨hid, huser⟩ := hp
      refine ⟨?_, ?_, ?_, ?_⟩
      · simp [dismiss_insight_view, hfind]
      · simp [dismiss_insight_view, hfind]
      · intro j hj
        simp only [dismiss_insight_view, hfind, List.mem_map] at hj
        obtain ⟨i, hi, hieq⟩ := hj
        by_cases hc : (i.id == ins.id) = true
        · rw [if_pos hc] at hieq
          constructor
          · intro _
            rw [← hieq]
            exact ⟨rfl, huser⟩
          · intro hne
            rw [← hieq] at hne
            exact absurd hid hne
        · rw [if_neg hc] at hieq
          constructor
          · intro hj_id
            exfalso
            apply hc
            rw [← hieq] at hj_id
            simp [hj_id, hid]
          · intro _
            rw [← hieq]
            exact hi
      · intro j hj
        intro hjid
        simp only [dismiss_insight_view, hfind] at hj
        simp only [insights_view, List.mem_filter, List.mem_map] at hj
        obtain ⟨⟨j2, hj2mem, hj2eq⟩, hflt⟩ := hj
        have hfields := markReadRow_fields uid j2
        have hdis : j.is_dismissed = false := by
          simp only [Bool.and_eq_true, Bool.not_eq_true'] at hflt
          exact hflt.2
        have hj2id : j2.id = insight_id := by
          rw [← hj2eq] at hjid
          rw [← hjid]
          exact (hfields.1).symm
        have hj2dis : j2.is_dismissed = false := by
          rw [← hj2eq] at hdis
          rw [← hdis]
          exact (hfields.2.2.2.2.2.2.1).symm
        obtain ⟨i, hi, hieq⟩ := hj2mem
        by_cases hc : (i.id == ins.id) = true
        · rw [if_pos hc] at hieq
          rw [← hieq] at hj2dis
          simp at hj2dis
        · rw [if_neg hc] at hieq
          apply hc
          rw [← hieq] at hj2id
          simp [hj2id, hid]

/-- Witness for C9 (found branch): user 0 dismisses their insight with id 1. -/
theorem dismiss_insight_spec_witness :
    (dismiss_insight_view dbW9 0 1).1 = some () :=
  ((dismiss_insight_spec dbW9 0 1).2 (by decide)).1

/-- C10: listing the insights page updates exactly the `is_read` flag: the
updated table has the same rows in the same order with every field except
`is_read` unchanged, `is_read` becoming true precisely for the requesting
user's non-dismissed rows (and staying as it was otherwise); afterwards the
user has no unread non-dismissed insight. -/
theorem insights_view_marks_read (db : List UserInsight) (uid : Nat) :
    List.Forall₂ (fun i j =>
        j.id = i.id ∧ j.user = i.user ∧ j.insight_type = i.insight_type ∧
        j.title = i.title ∧ j.message = i.message ∧ j.priority = i.priority ∧
        j.is_dismissed = i.is_dismissed ∧ j.generated_at = i.generated_at ∧
        j.is_read = (i.is_read || (i.user == uid && !i.is_dismissed)))
      db (insights_view db uid).2 ∧
    (∀ j ∈ (insights_view db uid).2, j.user = uid → j.is_dismissed = false →
      j.is_read = true) := by
  constructor
  · have h2 : (insights_view db uid).2 = db.map (markReadRow uid) := rfl
    rw [h2, List.forall₂_map_right_iff]
    rw [List.forall₂_same]
    intro i _
    exact markReadRow_fields uid i
  · intro j hj huser hdis
    have h2 : (insights_view db uid).2 = db.map (markReadRow uid) := rfl
    rw [h2, List.mem_map] at hj
    obtain ⟨i, hi, hieq⟩ := hj
    have hfields := markReadRow_fields uid i
    have hiuser : i.user = uid := by
      rw [← hieq] at huser
      rw [← huser]
      exact (hfields.2.1).symm
    have hidis : i.is_dismissed = false := by
      rw [← hieq] at hdis
      rw [← hdis]
      exact (hfields.2.2.2.2.2.2.1).symm
    rw [← hieq]
    rw [hfields.2.2.2.2.2.2.2.2]
    simp [hiuser, hidis]

/-- Witness for C10: after viewing, the (single) insight of user 0 is read. -/
theorem insights_view_marks_read_witness :
    ({ id := 7, user := 0, insight_type := "recommendation",
       is_read := true : UserInsight }).is_read = true :=
  (insights_view_marks_read dbC10 0).2
    { id := 7, user := 0, insight_type := "recommendation", is_read := true }
    (by decide) rfl rfl

/-- C8: the export of user `u` holds exactly the keys user, profile,
usage_logs, insights, feedback (first conjunct: full characterization of the
`ExportData` object), every exported usage log / insight / feedback record
arises from a source row owned by `u`, and the source rows feeding two
different users' exports are disjoint: a row of `u` never lies in the
selection filtered for another user `v`, and the profile row selected for
`v` is never `u`'s. -/
theorem export_data_owned_only (db : Db) (u : UserRec) (e : ExportData)
    (h : export_data_view db u = some e) :
    (∃ profile, db.profiles.find? (fun p => p.user == u.id) = some profile ∧
      e = { user := { username := u.username, email := u.email,
                      first_name := u.first_name, last_name := u.last_name,
                      date_joined := u.date_joined },
            profile := { student_id := profile.student_id,
                         department := profile.department,
                         enrollment_date := profile.enrollment_date,
                         data_collection_consent := profile.data_collection_consent,
                         consent_date := profile.consent_date },
            usage_logs := (db.logs.filter fun l => l.user == u.id).map usageLogExport,
            insights := (db.insights.filter fun i => i.user == u.id).map insightExport,
            feedback := (db.feedback.filter fun f => f.user == u.id).map feedbackExport }) ∧
    (∀ x ∈ e.usage_logs, ∃ l ∈ db.logs, l.user = u.id ∧ x = usageLogExport l) ∧
    (∀ x ∈ e.insights, ∃ i ∈ db.insights, i.user = u.id ∧ x = insightExport i) ∧
    (∀ x ∈ e.feedback, ∃ f ∈ db.feedback, f.user = u.id ∧ x = feedbackExport f) ∧
    (∀ v : UserRec, u.id ≠ v.id →
      (∀ l ∈ db.logs, l.user = u.id → l ∉ db.logs.filter fun l2 => l2.user == v.id) ∧
      (∀ i ∈ db.insights, i.user = u.id →
        i ∉ db.insights.filter fun i2 => i2.user == v.id) ∧
      (∀ f ∈ db.feedback, f.user = u.id →
        f ∉ db.feedback.filter fun f2 => f2.user == v.id) ∧
      (∀ q, db.profiles.find? (fun p2 => p2.user == v.id) = some q → q.user ≠ u.id)) := by
  cases hfind : db.profiles.find? (fun p => p.user == u.id) with
  | none =>
    rw [export_data_view, hfind] at h
    exact absurd h (by simp)
  | some profile =>
    rw [export_data_view, hfind] at h
    simp only [Option.some.injEq] at h
    refine ⟨⟨profile, rfl, h.symm⟩, ?_, ?_, ?_, ?_⟩
    · intro x hx
      rw [← h] at hx
      simp only [List.mem_map, List.mem_filter, beq_iff_eq] at hx
      obtain ⟨l, ⟨hl, hlu⟩, hleq⟩ := hx
      exact ⟨l, hl, hlu, hleq.symm⟩
    · intro x hx
      rw [← h] at hx
      simp only [List.mem_map, List.mem_filter, beq_iff_eq] at hx
      obtain ⟨i, ⟨hi, hiu⟩, hieq⟩ := hx
      exact ⟨i, hi, hiu, hieq.symm⟩
    · intro x hx
      rw [← h] at hx
      simp only [List.mem_map, List.mem_filter, beq_iff_eq] at hx
      obtain ⟨f, ⟨hf, hfu⟩, hfeq⟩ := hx
      exact ⟨f, hf, hfu, hfeq.symm⟩
    · intro v hv
      refine ⟨?_, ?_, ?_, ?_⟩
      · intro l _ hlu hmem
        rw [List.mem_filter] at hmem
        have : l.user = v.id := by simpa using hmem.2
        exact hv (by rw [← hlu, this])
      · intro i _ hiu hmem
        rw [List.mem_filter] at hmem
        have : i.user = v.id := by simpa using hmem.2
        exact hv (by rw [← hiu, this])
      · intro f _ hfu hmem
        rw [List.mem_filter] at hmem
        have : f.user = v.id := by simpa using hmem.2
        exact hv (by rw [← hfu, this])
      · intro q hq
        have : q.user = v.id := by simpa using List.find?_some hq
        rw [this]
        exact fun hvq => hv hvq.symm

/-- Witness for C8: in a two-user database, the usage log of user 0 never
lies in the selection filtered for user 1. -/
theorem export_data_owned_only_witness :
    ({ user := 0, timestamp := 1 : AIUsageLog }) ∉
      db8.logs.filter fun l2 => l2.user == (1 : Nat) :=
  ((export_data_owned_only db8 u8 e8 (by decide)).2.2.2.2 { id := 1 } (by decide)).1
    { user := 0, timestamp := 1 } (by decide) rfl

end Vibes
